import Mathlib

/-!
Verification of src/server.js: a six-line Express HTTP stub.

The source registers two routes with `app.get` and starts a listener:

  const express = require("express");
  const app = express();
  const port = process.env.PORT || 3000;
  app.get("/health", (req,res)=>res.json(\x7bstatus:"ok", svc:"user"\x7d));
  app.get("/users", (req,res)=>res.json([\x7bid:1,name:"Alice"\x7d]));
  app.listen(port,()=>console.log(...));

The embedding models the request/response cycle as a pure function on a
parsed request, reflecting the Express defaults the code relies on:
routes registered with `app.get` answer both GET and HEAD; path matching
is case-insensitive and non-strict (one optional trailing slash) and is
performed on the pathname only, never the query string; unmatched
requests fall through to the framework default 404; `res.json`
serialises the literal with content type application/json.
-/

/-- A parsed inbound HTTP request as the Express router sees it: the
method, the pathname component of the URL, the raw query string, the
headers and the entity body. The handlers in server.js consult none of
these beyond method and pathname. -/
structure Request where
  method : String
  pathname : String
  query : String
  headers : List (String × String)
  body : String
deriving DecidableEq

/-- An outbound HTTP response: status code, content type header (when
set), Allow header (set only by the automatic OPTIONS response) and
entity body (absent for HEAD responses, whose body the HTTP layer
suppresses). -/
structure Response where
  status : Nat
  contentType : Option String
  body : Option String
  allow : Option String := none
deriving DecidableEq

/-- ASCII lowercasing of one character, as the case-insensitive route
regex treats the ASCII route literals "/health" and "/users". -/
def lowerChar (c : Char) : Char :=
  if c.isUpper then Char.ofNat (c.toNat + 32) else c

/-- Express default (non-strict, case-insensitive) route matching on a
pathname: lowercase the pathname and allow one optional trailing slash,
as the default path-to-regexp compilation of "/health" and "/users"
does. -/
def normalizePath (p : String) : String :=
  let low := p.data.map lowerChar
  if 1 < low.length ∧ low.getLast? = some '/' then String.mk low.dropLast else String.mk low

/-- The JSON text `res.json` produces for the line-4 literal
`\x7bstatus:"ok", svc:"user"\x7d`. -/
def healthBody : String := "\x7b\"status\":\"ok\",\"svc\":\"user\"\x7d"

/-- The JSON text `res.json` produces for the line-5 literal
`[\x7bid:1,name:"Alice"\x7d]`. -/
def usersBody : String := "[\x7b\"id\":1,\"name\":\"Alice\"\x7d]"

/-- The content type `res.json` sets. -/
def jsonContentType : String := "application/json; charset=utf-8"

/-- The fixed response of the line-4 `/health` handler. -/
def healthResponse : Response :=
  { status := 200, contentType := some jsonContentType, body := some healthBody }

/-- The fixed response of the line-5 `/users` handler. -/
def usersResponse : Response :=
  { status := 200, contentType := some jsonContentType, body := some usersBody }

/-- One request/response cycle of the app built on lines 1-5. A route
registered with `app.get` matches GET and also HEAD (Express answers
HEAD through the GET handlers when no HEAD route exists). An OPTIONS
request on a path that has registered routes gets the automatic router
response: 200 with the Allow header and body listing the methods of the
matching routes, here GET,HEAD, sent as text. Anything else falls to
the framework default 404. For a HEAD request the HTTP layer drops the
body. -/
def handle (req : Request) : Response :=
  if (req.method = "GET" ∨ req.method = "HEAD") ∧ normalizePath req.pathname = "/health" then
    { status := 200, contentType := some jsonContentType,
      body := if req.method = "HEAD" then none else some healthBody }
  else if (req.method = "GET" ∨ req.method = "HEAD") ∧ normalizePath req.pathname = "/users" then
    { status := 200, contentType := some jsonContentType,
      body := if req.method = "HEAD" then none else some usersBody }
  else if req.method = "OPTIONS" ∧
      (normalizePath req.pathname = "/health" ∨ normalizePath req.pathname = "/users") then
    { status := 200, contentType := some "text/html; charset=utf-8",
      body := some "GET,HEAD", allow := some "GET,HEAD" }
  else
    { status := 404, contentType := some "text/html; charset=utf-8",
      body := if req.method = "HEAD" then none
              else some ("Cannot " ++ req.method ++ " " ++ req.pathname) }

/-- Serving a sequence of requests: the app holds no mutable state, so
a run is the pointwise image of `handle`. -/
def serve (reqs : List Request) : List Response :=
  reqs.map handle

/-- A JavaScript value relevant to line 3: the expression
`process.env.PORT || 3000` evaluates either to the string read from the
environment or to the number literal 3000. -/
inductive JsValue where
  | str : String → JsValue
  | num : Nat → JsValue
deriving DecidableEq

/-- Line 3: `const port = process.env.PORT || 3000;`. An environment
variable is a string or is absent; `||` takes the right operand exactly
when the left is falsy, and the only falsy string is the empty string.
No parsing or validation happens: any non-empty string, numeric or not,
is kept verbatim. -/
def port (envPORT : Option String) : JsValue :=
  match envPORT with
  | none => JsValue.num 3000
  | some s => if s = "" then JsValue.num 3000 else JsValue.str s

/-- String interpolation of a JavaScript value, for the line-6 log
message template. -/
def jsValueText : JsValue → String
  | JsValue.str s => s
  | JsValue.num n => toString n

/-- The observable fate of the process after line 6 runs: either the
listener is up on the bound port and the startup line was logged, or
the process terminated with an exit code and a surfaced error. -/
inductive ProcessOutcome where
  | running : JsValue → String → ProcessOutcome
  | exited : Nat → String → ProcessOutcome
deriving DecidableEq

/-- Line 6: `app.listen(port, ()=>console.log(...))`, abstracting the
operating system as `bindError` (the error raised while acquiring the
socket, when any). The source registers no listener for the error
event of the server, so Node.js default behaviour applies: the error is
thrown, uncaught, printed, and the process exits with code 1. On
success the callback logs the startup line. -/
def startup (bindError : JsValue → Option String) (envPORT : Option String) : ProcessOutcome :=
  match bindError (port envPORT) with
  | none => ProcessOutcome.running (port envPORT)
      ("user-service listening " ++ jsValueText (port envPORT))
  | some e => ProcessOutcome.exited 1 e

/-- Helper: any GET request whose pathname normalizes to "/health" gets
the fixed health response. -/
theorem handle_get_health (r : Request) (hm : r.method = "GET")
    (hp : normalizePath r.pathname = "/health") : handle r = healthResponse := by
  simp [handle, hm, hp, healthResponse]

/-- Helper: any GET request whose pathname normalizes to "/users" gets
the fixed users response. -/
theorem handle_get_users (r : Request) (hm : r.method = "GET")
    (hp : normalizePath r.pathname = "/users") : handle r = usersResponse := by
  simp [handle, hm, hp, usersResponse]

/-- C1: every GET request to /health is answered with status 200, the
exact JSON body with status "ok" and svc "user", and JSON content type,
whatever the query string, headers or body of the request. -/
theorem health_get_fixed_response (q : String) (hd : List (String × String)) (b : String) :
    handle { method := "GET", pathname := "/health", query := q, headers := hd, body := b } =
      { status := 200, contentType := some jsonContentType, body := some healthBody } :=
  rfl

/-- C2: every GET request to /users is answered with status 200, the
exact single-element JSON array with id 1 and name "Alice", and JSON
content type, whatever the query string, headers or body of the
request. -/
theorem users_get_fixed_response (q : String) (hd : List (String × String)) (b : String) :
    handle { method := "GET", pathname := "/users", query := q, headers := hd, body := b } =
      { status := 200, contentType := some jsonContentType, body := some usersBody } :=
  rfl

/-- C3 counterexample: a HEAD request to /health is not a GET request to
/health or /users, yet it is answered 200, not 404, because Express
serves HEAD through routes registered with app.get. -/
theorem other_method_404_counterexample :
    (Request.mk "HEAD" "/health" "" [] "").method ≠ "GET" ∧
    (handle (Request.mk "HEAD" "/health" "" [] "")).status = 200 ∧
    (handle (Request.mk "HEAD" "/health" "" [] "")).status ≠ 404 := by
  decide

/-- C3 amended: every request that is not a GET, HEAD or OPTIONS
request matching /health or /users is answered with status 404; this
covers any method other than those three on the two registered paths,
and any method at all on an undefined path. HEAD there is served with
200 by the GET handlers, and OPTIONS there gets the automatic 200
router response with Allow GET,HEAD. -/
theorem unmatched_request_404 (r : Request)
    (h : ¬((r.method = "GET" ∨ r.method = "HEAD" ∨ r.method = "OPTIONS") ∧
        (normalizePath r.pathname = "/health" ∨ normalizePath r.pathname = "/users"))) :
    (handle r).status = 404 := by
  unfold handle
  split
  · rename_i hc
    exact absurd ⟨hc.1.elim Or.inl fun x => Or.inr (Or.inl x), Or.inl hc.2⟩ h
  · split
    · rename_i hc
      exact absurd ⟨hc.1.elim Or.inl fun x => Or.inr (Or.inl x), Or.inr hc.2⟩ h
    · split
      · rename_i hc
        exact absurd ⟨Or.inr (Or.inr hc.1), hc.2⟩ h
      · rfl

/-- Witness for C3 amended, at a DELETE request to /users. -/
theorem unmatched_request_404_witness :
    (handle (Request.mk "DELETE" "/users" "" [] "")).status = 404 :=
  unmatched_request_404 (Request.mk "DELETE" "/users" "" [] "") (by decide)

/-- C4 counterexample: with the environment value "abc" — a value with
no valid port reading — the service does not fall back to 3000: line 3
keeps the string "abc" verbatim, because || only replaces falsy values
and every non-empty string is truthy. -/
theorem invalid_port_not_default_counterexample :
    port (some "abc") = JsValue.str "abc" ∧ port (some "abc") ≠ JsValue.num 3000 := by
  decide

/-- C4 amended: the listening port is taken from the environment value;
when it is absent or the empty string the service binds to 3000, and
any other configured value, valid or not, is used verbatim instead. -/
theorem port_default_amended (s : String) (hs : s ≠ "") :
    port none = JsValue.num 3000 ∧ port (some "") = JsValue.num 3000 ∧
    port (some s) = JsValue.str s := by
  refine ⟨rfl, rfl, ?_⟩
  simp [port, hs]

/-- Witness for C4 amended, at the configured value "8080". -/
theorem port_default_amended_witness :
    port none = JsValue.num 3000 ∧ port (some "") = JsValue.num 3000 ∧
    port (some "8080") = JsValue.str "8080" :=
  port_default_amended "8080" (by decide)

/-- C5: when the listening socket cannot be acquired at startup, the
raised error is surfaced and the process terminates with a non-zero
exit status. -/
theorem bind_failure_fatal (bindError : JsValue → Option String) (env : Option String)
    (e : String) (h : bindError (port env) = some e) :
    ∃ code, code ≠ 0 ∧ startup bindError env = ProcessOutcome.exited code e :=
  ⟨1, one_ne_zero, by simp [startup, h]⟩

/-- Witness for C5, with a port already in use. -/
theorem bind_failure_fatal_witness :
    ∃ code, code ≠ 0 ∧
      startup (fun _ => some "EADDRINUSE") none = ProcessOutcome.exited code "EADDRINUSE" :=
  bind_failure_fatal (fun _ => some "EADDRINUSE") none "EADDRINUSE" rfl

/-- C6: the two routes are pure and deterministic: any two GET requests
resolving to the same route receive identical responses regardless of
their other content, and the response to a request does not depend on
the requests served before it. -/
theorem routes_pure_deterministic (r1 r2 : Request) (p : String)
    (hp : p = "/health" ∨ p = "/users")
    (h1 : r1.method = "GET") (h2 : r2.method = "GET")
    (n1 : normalizePath r1.pathname = p) (n2 : normalizePath r2.pathname = p)
    (prior : List Request) :
    handle r1 = handle r2 ∧ serve (prior ++ [r1]) = serve prior ++ [handle r1] := by
  constructor
  · rcases hp with hp | hp <;> subst hp
    · rw [handle_get_health r1 h1 n1, handle_get_health r2 h2 n2]
    · rw [handle_get_users r1 h1 n1, handle_get_users r2 h2 n2]
  · simp [serve]

/-- Witness for C6: two different-looking GET requests to /health, one
after an unrelated prior request. -/
theorem routes_pure_deterministic_witness :
    handle (Request.mk "GET" "/health" "" [] "") =
      handle (Request.mk "GET" "/HEALTH/" "x=1" [("a", "b")] "z") ∧
    serve ([Request.mk "DELETE" "/x" "" [] ""] ++ [Request.mk "GET" "/health" "" [] ""]) =
      serve [Request.mk "DELETE" "/x" "" [] ""] ++
        [handle (Request.mk "GET" "/health" "" [] "")] :=
  routes_pure_deterministic (Request.mk "GET" "/health" "" [] "")
    (Request.mk "GET" "/HEALTH/" "x=1" [("a", "b")] "z") "/health" (Or.inl rfl) rfl rfl
    (by decide) (by decide) [Request.mk "DELETE" "/x" "" [] ""]

/-- C7: under concurrent load every GET request to /users receives the
identical correct body, and a batch of requests is served with no
cross-request interference: surrounding it with any other requests
leaves its responses unchanged. -/
theorem concurrent_users_independent (reqs : List Request)
    (h : ∀ r ∈ reqs, r.method = "GET" ∧ normalizePath r.pathname = "/users") :
    (∀ resp ∈ serve reqs, resp = usersResponse) ∧
    ∀ l1 l2 : List Request, serve (l1 ++ reqs ++ l2) = serve l1 ++ serve reqs ++ serve l2 := by
  constructor
  · intro resp hresp
    simp only [serve, List.mem_map] at hresp
    obtain ⟨r, hr, rfl⟩ := hresp
    exact handle_get_users r (h r hr).1 (h r hr).2
  · intro l1 l2
    simp [serve]

/-- Witness for C7: 100 simultaneous GET requests to /users. -/
theorem concurrent_users_independent_witness :
    (∀ resp ∈ serve (List.replicate 100 (Request.mk "GET" "/users" "" [] "")),
      resp = usersResponse) ∧
    ∀ l1 l2 : List Request,
      serve (l1 ++ List.replicate 100 (Request.mk "GET" "/users" "" [] "") ++ l2) =
        serve l1 ++ serve (List.replicate 100 (Request.mk "GET" "/users" "" [] "")) ++ serve l2 :=
  concurrent_users_independent (List.replicate 100 (Request.mk "GET" "/users" "" [] ""))
    (by
      intro r hr
      rw [List.eq_of_mem_replicate hr]
      exact ⟨rfl, by decide⟩)

/-- C8: a HEAD request to /health or /users is served by the GET route
with status 200 and the body omitted, not with the 404 of an unmatched
route. -/
theorem head_requests_served (q : String) (hd : List (String × String)) (b : String) :
    handle { method := "HEAD", pathname := "/health", query := q, headers := hd, body := b } =
      { status := 200, contentType := some jsonContentType, body := none } ∧
    handle { method := "HEAD", pathname := "/users", query := q, headers := hd, body := b } =
      { status := 200, contentType := some jsonContentType, body := none } :=
  ⟨rfl, rfl⟩

/-- C9: route matching ignores everything beyond the pathname: any
query string, and under the default non-strict case-insensitive
matching also a trailing slash or different letter case, still yields
the same fixed 200 response. -/
theorem route_matching_lax (q : String) (hd : List (String × String)) (b : String) :
    handle { method := "GET", pathname := "/health", query := q, headers := hd, body := b } =
      healthResponse ∧
    handle (Request.mk "GET" "/HEALTH" "" [] "") = healthResponse ∧
    handle (Request.mk "GET" "/health/" "" [] "") = healthResponse ∧
    handle (Request.mk "GET" "/Users" "" [] "") = usersResponse ∧
    handle (Request.mk "GET" "/users/" "x=1" [] "") = usersResponse ∧
    handle { method := "GET", pathname := "/users", query := q, headers := hd, body := b } =
      usersResponse :=
  ⟨rfl, rfl, rfl, rfl, rfl, rfl⟩

/-- C10: the environment value PORT is used verbatim, with no numeric
parsing or validation: only an absent or empty-string value falls back
to 3000, and any non-empty value, even a non-numeric one such as "abc",
is passed unchanged to the listen call. -/
theorem port_used_verbatim (s : String) (hs : s ≠ "") :
    port (some s) = JsValue.str s ∧ port (some "abc") = JsValue.str "abc" ∧
    port none = JsValue.num 3000 ∧ port (some "") = JsValue.num 3000 := by
  refine ⟨?_, rfl, rfl, rfl⟩
  simp [port, hs]

/-- Witness for C10, at the non-numeric value "abc". -/
theorem port_used_verbatim_witness :
    port (some "abc") = JsValue.str "abc" ∧ port (some "abc") = JsValue.str "abc" ∧
    port none = JsValue.num 3000 ∧ port (some "") = JsValue.num 3000 :=
  port_used_verbatim "abc" (by decide)
